import Mathlib

/-!
Verification of the Tilt-Maze core: a shallow embedding of the physics
engine (`src/physics.js`), the input normalizer (`src/input.js`) and the
level provider (`src/levels.js`), together with theorems settling the
specification claims about them.  Numeric JS values are modelled as real
numbers; grids are rectangular matrices of cell codes.
-/

open Classical

namespace TiltMaze

/-! ## Cell type codes (`CELL_TYPES` in physics.js / levels.js) -/

def EMPTY : ℕ := 0
def WALL : ℕ := 1
def HOLE : ℕ := 2
def GOAL : ℕ := 3

/-! ## Ball state and tuning constants (class `BallState` in physics.js) -/

/-- Tuning constant `this.maxSpeed = 0.25`. -/
def maxSpeed : ℝ := 0.25

/-- Tuning constant `this.friction = 0.96`. -/
def friction : ℝ := 0.96

/-- Tuning constant `this.acceleration = 0.012`. -/
def acceleration : ℝ := 0.012

/-- The mutable ball state: position, velocity (grid units / frame) and radius. -/
@[ext]
structure BallState where
  x : ℝ
  y : ℝ
  vx : ℝ
  vy : ℝ
  radius : ℝ

/-- `Math.hypot(a, b)`. -/
noncomputable def hypot (a b : ℝ) : ℝ := Real.sqrt (a ^ 2 + b ^ 2)

/-- `Math.max(-1, Math.min(1, v))` — the defensive clamp used by `applyTilt`. -/
noncomputable def clamp1 (v : ℝ) : ℝ := max (-1) (min 1 v)

/-- `new BallState(radius)`: constructor ending in `this.reset(1.5, 1.5)`. -/
noncomputable def BallState.init (radius : ℝ) : BallState :=
  { x := 1.5, y := 1.5, vx := 0, vy := 0, radius := radius }

/-- `BallState.reset(x, y)`. -/
def BallState.reset (b : BallState) (x y : ℝ) : BallState :=
  { b with x := x, y := y, vx := 0, vy := 0 }

/-- `BallState.applyTilt(ax, ay)` (the spec's `applyControl`). -/
noncomputable def BallState.applyTilt (b : BallState) (ax ay : ℝ) : BallState :=
  let vx := b.vx + clamp1 ax * acceleration
  let vy := b.vy + clamp1 ay * acceleration
  let speed := hypot vx vy
  if speed > maxSpeed then
    let scale := maxSpeed / speed
    { b with vx := vx * scale, vy := vy * scale }
  else
    { b with vx := vx, vy := vy }

/-- Per-component friction and velocity deadzone from `BallState.integrate`:
`v *= friction; if (Math.abs(v) < 0.001) v = 0`. -/
noncomputable def frictionDead (v : ℝ) : ℝ :=
  if |v * friction| < 0.001 then 0 else v * friction

/-- `BallState.integrate()`: friction, deadzone, then position update. -/
noncomputable def BallState.integrate (b : BallState) : BallState :=
  let vx := frictionDead b.vx
  let vy := frictionDead b.vy
  { b with vx := vx, vy := vy, x := b.x + vx, y := b.y + vy }

/-! ## Grids -/

/-- A rectangular maze grid: `rows × cols` cells of numeric cell codes.
`cell r c` is `grid[r][c]` for in-range indices. -/
structure Grid where
  rows : ℕ
  cols : ℕ
  cell : ℕ → ℕ → ℕ

/-- Bounds test `row >= 0 && row < rows && col >= 0 && col < cols`. -/
def Grid.InBounds (g : Grid) (row col : ℤ) : Prop :=
  0 ≤ row ∧ row < (g.rows : ℤ) ∧ 0 ≤ col ∧ col < (g.cols : ℤ)

instance (g : Grid) (row col : ℤ) : Decidable (g.InBounds row col) := by
  unfold Grid.InBounds; infer_instance

/-- Cell lookup at signed indices (meaningful when in bounds). -/
def Grid.cellAt (g : Grid) (row col : ℤ) : ℕ := g.cell row.toNat col.toNat

/-- The 3×3 neighborhood scan order of `resolveWallCollisions` /
`checkHoleCollision`: rows `cellRow-1 .. cellRow+1` outer, columns inner. -/
def neighborCells (cellRow cellCol : ℤ) : List (ℤ × ℤ) :=
  ([-1, 0, 1] : List ℤ).flatMap fun dr =>
    ([-1, 0, 1] : List ℤ).map fun dc => (cellRow + dr, cellCol + dc)

/-- The in-bounds WALL cells collected into `candidates` by
`resolveWallCollisions`, in scan order. -/
def wallCandidates (g : Grid) (cellRow cellCol : ℤ) : List (ℤ × ℤ) :=
  (neighborCells cellRow cellCol).filter fun rc =>
    decide (g.InBounds rc.1 rc.2 ∧ g.cellAt rc.1 rc.2 = WALL)

/-- The in-bounds HOLE cells scanned by `checkHoleCollision`, in scan order. -/
def holeCandidates (g : Grid) (cellRow cellCol : ℤ) : List (ℤ × ℤ) :=
  (neighborCells cellRow cellCol).filter fun rc =>
    decide (g.InBounds rc.1 rc.2 ∧ g.cellAt rc.1 rc.2 = HOLE)

/-- `closestX = Math.max(left, Math.min(ball.x, right))` for the wall cell
`rc = (row, col)` with `left = col`, `right = col + 1`. -/
noncomputable def closestX (b : BallState) (rc : ℤ × ℤ) : ℝ :=
  max (rc.2 : ℝ) (min b.x ((rc.2 : ℝ) + 1))

/-- `closestY = Math.max(top, Math.min(ball.y, bottom))`. -/
noncomputable def closestY (b : BallState) (rc : ℤ × ℤ) : ℝ :=
  max (rc.1 : ℝ) (min b.y ((rc.1 : ℝ) + 1))

/-- `distance = Math.hypot(dx, dy)` from ball center to the closest point of
wall cell `rc`. -/
noncomputable def wallDist (b : BallState) (rc : ℤ × ℤ) : ℝ :=
  hypot (b.x - closestX b rc) (b.y - closestY b rc)

/-- Collision normal x component `nx = dx / distance`. -/
noncomputable def wallNx (b : BallState) (rc : ℤ × ℤ) : ℝ :=
  (b.x - closestX b rc) / wallDist b rc

/-- Collision normal y component `ny = dy / distance`. -/
noncomputable def wallNy (b : BallState) (rc : ℤ × ℤ) : ℝ :=
  (b.y - closestY b rc) / wallDist b rc

/-- Normal velocity component `dot = vx*nx + vy*ny`. -/
noncomputable def wallDot (b : BallState) (rc : ℤ × ℤ) : ℝ :=
  b.vx * wallNx b rc + b.vy * wallNy b rc

/-- Body of the `candidates.forEach(cell => ...)` callback in
`resolveWallCollisions`: push-out plus conditional restitution response. -/
noncomputable def resolveWallCell (b : BallState) (rc : ℤ × ℤ) : BallState :=
  if wallDist b rc < b.radius ∧ wallDist b rc ≠ 0 then
    if wallDot b rc < 0 then
      { b with
        x := b.x + wallNx b rc * (b.radius - wallDist b rc)
        y := b.y + wallNy b rc * (b.radius - wallDist b rc)
        vx := b.vx - 1.8 * wallDot b rc * wallNx b rc
        vy := b.vy - 1.8 * wallDot b rc * wallNy b rc }
    else
      { b with
        x := b.x + wallNx b rc * (b.radius - wallDist b rc)
        y := b.y + wallNy b rc * (b.radius - wallDist b rc) }
  else b

/-- `resolveWallCollisions(ball, grid)`: the candidate list is computed from
the pre-resolution position, then each candidate is resolved sequentially. -/
noncomputable def resolveWallCollisions (b : BallState) (g : Grid) : BallState :=
  (wallCandidates g ⌊b.y⌋ ⌊b.x⌋).foldl resolveWallCell b

/-- `clampToBounds(ball, grid)`. -/
noncomputable def clampToBounds (b : BallState) (g : Grid) : BallState :=
  { b with
    x := max b.radius (min ((g.cols : ℝ) - b.radius) b.x)
    y := max b.radius (min ((g.rows : ℝ) - b.radius) b.y) }

/-- `checkHoleCollision(ball, grid)`: some scanned HOLE cell's center is
closer than `holeRadius (0.35) + ball.radius` to the ball center. -/
def checkHoleCollision (b : BallState) (g : Grid) : Prop :=
  ∃ rc ∈ holeCandidates g ⌊b.y⌋ ⌊b.x⌋,
    hypot (b.x - ((rc.2 : ℝ) + 0.5)) (b.y - ((rc.1 : ℝ) + 0.5)) < 0.35 + b.radius

/-- `isBallInCellType(ball, grid, type, radiusFactor)`. -/
def isBallInCellType (b : BallState) (g : Grid) (t : ℕ) (radiusFactor : ℝ) : Prop :=
  g.InBounds ⌊b.y⌋ ⌊b.x⌋ ∧ g.cellAt ⌊b.y⌋ ⌊b.x⌋ = t ∧
    hypot (b.x - ((⌊b.x⌋ : ℝ) + 0.5)) (b.y - ((⌊b.y⌋ : ℝ) + 0.5)) < radiusFactor

/-- Result record of `simulatePhysicsStep`, extended with the mutated ball. -/
structure StepResult where
  ball : BallState
  hitHole : Prop
  reachedGoal : Prop

/-- `simulatePhysicsStep(ball, grid)`: integrate, resolve walls, clamp,
then hole / goal detection. -/
noncomputable def simulatePhysicsStep (b : BallState) (g : Grid) : StepResult :=
  let b1 := b.integrate
  let b2 := resolveWallCollisions b1 g
  let b3 := clampToBounds b2 g
  let hitHole := checkHoleCollision b3 g
  { ball := b3
    hitHole := hitHole
    reachedGoal := ¬hitHole ∧ isBallInCellType b3 g GOAL 0.45 }

/-! ## Input normalizer (`InputController` in input.js) -/

/-- The two input modes, `this.mode = 'sensor' | 'keyboard'`. -/
inductive Mode where
  | sensor
  | keyboard
deriving DecidableEq

/-- The `InputController` fields relevant to tilt processing and calibration. -/
@[ext]
structure InputState where
  tiltX : ℝ
  tiltY : ℝ
  mode : Mode
  calBeta : ℝ
  calGamma : ℝ
  isCalibrated : Bool
  deviceOrientationActive : Bool
  lastBeta : ℝ
  lastGamma : ℝ

/-- `normalizeTilt(value, maxDegrees)`: clamp, divide, deadzone-snap. -/
noncomputable def normalizeTilt (value maxDegrees : ℝ) : ℝ :=
  if |max (-maxDegrees) (min maxDegrees value) / maxDegrees| < 0.01 then 0
  else max (-maxDegrees) (min maxDegrees value) / maxDegrees

/-- Mode-dependent smoothing factor used by `applySmoothedTilt`. -/
noncomputable def smoothingFor (m : Mode) : ℝ :=
  if m = Mode.keyboard then 0.75 else 0.4

/-- `applySmoothedTilt(targetX, targetY)`: snap to zero in keyboard mode on a
zero target, otherwise linear interpolation with the mode's smoothing. -/
noncomputable def applySmoothedTilt (s : InputState) (targetX targetY : ℝ) : InputState :=
  if s.mode = Mode.keyboard ∧ targetX = 0 ∧ targetY = 0 then
    { s with tiltX := 0, tiltY := 0 }
  else
    { s with
      tiltX := s.tiltX * (1 - smoothingFor s.mode) + targetX * smoothingFor s.mode
      tiltY := s.tiltY * (1 - smoothingFor s.mode) + targetY * smoothingFor s.mode }

/-- `switchMode(mode)` (UI callback is cosmetic and not modelled). -/
def switchMode (s : InputState) (m : Mode) : InputState := { s with mode := m }

/-- `calibrate()`: store the last raw reading as offset and zero the tilt
(the 600 ms completion timer is cosmetic and not modelled). -/
def calibrate (s : InputState) : InputState :=
  if s.deviceOrientationActive then
    { s with
      calBeta := s.lastBeta
      calGamma := s.lastGamma
      isCalibrated := true
      tiltX := 0
      tiltY := 0 }
  else
    { s with tiltX := 0, tiltY := 0 }

/-- Sanitization of a raw sensor field: `null`/`undefined`/`NaN` become 0. -/
noncomputable def sanitize (v : Option ℝ) : ℝ := v.getD 0

/-- `handleOrientation(event)`: sanitize, remember raw values, subtract the
calibration offset, normalize against 45°, smooth, and switch to sensor
mode when not already there. -/
noncomputable def handleOrientation (s : InputState) (eventBeta eventGamma : Option ℝ) :
    InputState :=
  let beta := sanitize eventBeta
  let gamma := sanitize eventGamma
  let s1 := { s with lastBeta := beta, lastGamma := gamma }
  let calibratedBeta := if s1.isCalibrated then beta - s1.calBeta else beta
  let calibratedGamma := if s1.isCalibrated then gamma - s1.calGamma else gamma
  let normalizedY := normalizeTilt calibratedBeta 45
  let normalizedX := normalizeTilt calibratedGamma 45
  let s2 := applySmoothedTilt s1 normalizedX normalizedY
  if s2.mode ≠ Mode.sensor then switchMode s2 Mode.sensor else s2

/-! ## Level provider (`levels.js`) -/

/-- A raw authored level; wall and hole entries are `(x, y)` pairs. -/
structure RawLevel where
  id : ℕ
  name : String
  width : ℕ
  height : ℕ
  start : ℕ × ℕ
  goal : ℕ × ℕ
  walls : List (ℕ × ℕ)
  holes : List (ℕ × ℕ)

/-- A hydrated level as returned by `getLevelData`. -/
structure HydratedLevel where
  id : ℕ
  name : String
  width : ℕ
  height : ℕ
  start : ℚ × ℚ
  goal : ℚ × ℚ
  grid : List (List ℕ)

/-- `createGrid(width, height)`: `height` rows of `width` zeroes. -/
def createGrid (width height : ℕ) : List (List ℕ) :=
  List.replicate height (List.replicate width 0)

/-- Guarded cell write `if (grid[y] && typeof grid[y][x] !== 'undefined') grid[y][x] = v`. -/
def setCell (g : List (List ℕ)) (x y v : ℕ) : List (List ℕ) :=
  if h : y < g.length then
    if x < (g.get ⟨y, h⟩).length then
      g.set y ((g.get ⟨y, h⟩).set x v)
    else g
  else g

/-- `hydrateLevel(base)`: stamp walls, holes and the goal into a fresh grid. -/
def hydrateLevel (base : RawLevel) : HydratedLevel :=
  let g0 := createGrid base.width base.height
  let g1 := base.walls.foldl (fun g xy => setCell g xy.1 xy.2 1) g0
  let g2 := base.holes.foldl (fun g xy => setCell g xy.1 xy.2 2) g1
  let g3 := setCell g2 base.goal.1 base.goal.2 3
  { id := base.id
    name := base.name
    width := base.width
    height := base.height
    start := ((base.start.1 : ℚ) + 1/2, (base.start.2 : ℚ) + 1/2)
    goal := ((base.goal.1 : ℚ) + 1/2, (base.goal.2 : ℚ) + 1/2)
    grid := g3 }

/-- Level 1, `Tutorial Run`. -/
def level1 : RawLevel :=
  { id := 1
    name := "Tutorial Run"
    width := 10
    height := 10
    start := (1, 1)
    goal := (8, 8)
    walls :=
      (List.range 10).map (fun i => (i, 0)) ++
      (List.range 10).map (fun i => (i, 9)) ++
      (List.range 10).map (fun i => (0, i)) ++
      (List.range 10).map (fun i => (9, i)) ++
      [(2, 2), (2, 3),
       (4, 2), (4, 3), (4, 4),
       (6, 3), (6, 4), (6, 5),
       (7, 5), (7, 6),
       (5, 6), (5, 7)]
    holes := [(3, 4), (7, 4), (4, 6)] }

/-- Level 2, `Forked Paths`. -/
def level2 : RawLevel :=
  { id := 2
    name := "Forked Paths"
    width := 12
    height := 12
    start := (1, 1)
    goal := (10, 10)
    walls :=
      (List.range 12).map (fun i => (i, 0)) ++
      (List.range 12).map (fun i => (i, 11)) ++
      (List.range 12).map (fun i => (0, i)) ++
      (List.range 12).map (fun i => (11, i)) ++
      [(3, 2), (3, 3), (3, 4),
       (1, 5), (5, 1),
       (9, 2), (9, 3),
       (3, 5), (4, 5),
       (7, 5), (8, 5), (9, 5),
       (4, 7), (5, 7), (6, 7),
       (2, 8), (3, 8),
       (7, 8), (8, 8), (9, 8)]
    holes := [(10, 5), (4, 3), (7, 3), (5, 6), (3, 9), (8, 9)] }

/-- Level 3, `Labyrinth Loop`. -/
def level3 : RawLevel :=
  { id := 3
    name := "Labyrinth Loop"
    width := 14
    height := 14
    start := (1, 1)
    goal := (12, 12)
    walls :=
      (List.range 14).map (fun i => (i, 0)) ++
      (List.range 14).map (fun i => (i, 13)) ++
      (List.range 14).map (fun i => (0, i)) ++
      (List.range 14).map (fun i => (13, i)) ++
      [(2, 2), (2, 3), (2, 4), (2, 5),
       (4, 1), (4, 2),
       (5, 2), (5, 3), (5, 4),
       (8, 2), (8, 4), (8, 5), (8, 6),
       (11, 2), (11, 3), (11, 4),
       (3, 6), (4, 6), (5, 6), (6, 6),
       (9, 6), (10, 6), (11, 6),
       (2, 8), (4, 8), (5, 8),
       (7, 8), (8, 8), (9, 8), (10, 8),
       (5, 10), (6, 10), (7, 10), (8, 10),
       (2, 10), (2, 11), (2, 12),
       (11, 10), (11, 11), (11, 12)]
    holes := [(4, 3), (6, 4), (9, 7), (4, 9), (6, 9), (9, 10), (2, 6)] }

/-- Level 4, `Narrow Danger`. -/
def level4 : RawLevel :=
  { id := 4
    name := "Narrow Danger"
    width := 16
    height := 16
    start := (1, 1)
    goal := (14, 14)
    walls :=
      (List.range 16).map (fun i => (i, 0)) ++
      (List.range 16).map (fun i => (i, 15)) ++
      (List.range 16).map (fun i => (0, i)) ++
      (List.range 16).map (fun i => (15, i)) ++
      [(3, 1), (3, 2), (3, 3),
       (6, 1), (6, 2),
       (9, 1), (9, 2), (9, 3),
       (4, 4), (5, 4), (6, 4),
       (10, 4), (11, 4), (12, 4),
       (2, 6), (3, 6), (4, 6),
       (7, 6), (8, 6), (9, 6),
       (12, 6), (13, 6),
       (1, 8), (2, 8), (3, 8),
       (5, 8), (7, 8),
       (10, 8), (11, 8), (12, 8),
       (4, 10), (5, 10), (6, 10),
       (9, 10), (10, 10), (11, 10),
       (2, 12), (3, 12),
       (7, 12), (8, 12), (9, 12),
       (12, 12), (13, 12),
       (1, 13), (2, 13),
       (5, 13), (6, 13),
       (9, 13), (10, 13),
       (13, 13)]
    holes :=
      [(5, 3), (8, 5),
       (4, 7), (11, 7),
       (8, 9), (12, 9),
       (5, 11),
       (4, 13), (11, 13)] }

/-- Level 5, `Spiral Drift`. -/
def level5 : RawLevel :=
  { id := 5
    name := "Spiral Drift"
    width := 18
    height := 18
    start := (1, 1)
    goal := (16, 16)
    walls :=
      (List.range 18).map (fun i => (i, 0)) ++
      (List.range 18).map (fun i => (i, 17)) ++
      (List.range 18).map (fun i => (0, i)) ++
      (List.range 18).map (fun i => (17, i)) ++
      [(2, 1), (2, 2),
       (4, 1),
       (6, 1), (6, 2),
       (13, 1), (13, 2), (13, 3),
       (15, 1), (15, 2),
       (4, 3), (5, 3),
       (8, 3), (9, 3), (10, 3),
       (12, 3),
       (1, 5), (2, 5), (3, 5),
       (5, 5), (6, 5),
       (12, 5), (13, 5), (14, 5),
       (16, 5),
       (4, 7), (4, 8),
       (7, 7), (7, 8), (7, 9),
       (10, 7), (10, 8),
       (13, 7), (13, 8), (13, 9),
       (2, 10), (3, 10), (4, 10),
       (6, 10), (7, 10),
       (9, 10), (10, 10),
       (12, 10), (13, 10), (14, 10),
       (3, 12), (4, 12),
       (6, 12), (7, 12), (8, 12),
       (11, 12), (12, 12),
       (14, 12), (15, 12),
       (2, 14), (3, 14),
       (5, 14), (6, 14),
       (9, 14), (10, 14), (11, 14),
       (13, 14), (14, 14),
       (16, 14),
       (2, 15), (3, 15),
       (6, 15), (7, 15),
       (10, 15), (11, 15),
       (14, 15), (15, 15)]
    holes :=
      [(5, 2), (11, 2),
       (2, 4), (8, 4), (14, 4),
       (5, 6), (12, 6),
       (3, 9), (9, 9), (15, 9),
       (6, 11), (13, 11),
       (4, 13), (10, 13),
       (7, 15), (14, 15)] }

/-- Level 6, `Gridlock`. -/
def level6 : RawLevel :=
  { id := 6
    name := "Gridlock"
    width := 20
    height := 20
    start := (1, 1)
    goal := (18, 18)
    walls :=
      (List.range 20).map (fun i => (i, 0)) ++
      (List.range 20).map (fun i => (i, 19)) ++
      (List.range 20).map (fun i => (0, i)) ++
      (List.range 20).map (fun i => (19, i)) ++
      [(1, 8), (2, 8),
       (9, 2), (9, 3), (9, 4),
       (10, 2), (10, 3), (10, 4),
       (9, 6), (9, 7), (9, 8),
       (10, 6), (10, 7), (10, 8),
       (9, 11), (9, 12), (9, 13),
       (10, 11), (10, 12), (10, 13),
       (9, 15), (9, 16), (9, 17),
       (10, 15), (10, 16), (10, 17),
       (2, 9), (4, 9), (5, 9), (6, 9), (7, 9), (8, 9), (4, 10),
       (11, 9), (12, 9), (13, 9), (14, 9), (15, 9), (16, 9), (17, 9),
       (2, 1), (2, 2),
       (4, 1), (4, 2), (4, 3),
       (6, 1),
       (15, 1), (15, 2),
       (17, 1), (17, 2), (17, 3),
       (13, 1),
       (2, 17), (2, 18),
       (4, 16), (4, 17),
       (6, 18),
       (15, 17), (15, 18),
       (17, 16), (17, 17), (17, 18),
       (13, 18), (12, 10),
       (3, 5), (3, 6),
       (5, 5), (5, 6), (5, 7),
       (7, 4), (7, 5),
       (14, 5), (14, 6),
       (16, 5), (16, 6), (16, 7),
       (12, 4), (12, 5),
       (3, 13), (3, 14),
       (5, 12), (5, 13), (5, 14),
       (7, 14), (7, 15),
       (12, 14), (12, 15),
       (14, 13), (14, 14),
       (16, 12), (16, 13), (16, 14), (6, 17)]
    holes :=
      [(3, 3), (7, 3), (13, 3), (16, 3),
       (2, 6), (6, 6), (14, 6), (17, 6),
       (4, 8), (7, 8), (12, 8), (15, 8),
       (3, 11), (6, 11), (13, 11), (16, 11),
       (5, 15), (8, 15), (11, 15), (14, 15),
       (4, 17), (7, 17), (12, 17), (15, 17), (18, 12)] }

/-- The `LEVELS` table. -/
def LEVELS : List RawLevel := [level1, level2, level3, level4, level5, level6]

/-- `TOTAL_LEVELS = LEVELS.length`. -/
def TOTAL_LEVELS : ℕ := LEVELS.length

/-- `getLevelData(levelNumber)`: hydrate the 1-indexed level, or throw a
descriptive error when `LEVELS[levelNumber - 1]` is undefined. -/
def getLevelData (n : ℤ) : Except String HydratedLevel :=
  if h : 1 ≤ n ∧ (n - 1).toNat < LEVELS.length then
    .ok (hydrateLevel (LEVELS.get ⟨(n - 1).toNat, h.2⟩))
  else
    .error ("Level " ++ toString n ++ " does not exist. Available levels: 1-" ++
      toString LEVELS.length)

/-! ## Specification-side definitions (phrased after the spec's words, to be
compared with the code-derived definitions above) -/

/-- Spec wording of hole detection: some in-bounds HOLE cell of the 3×3
neighborhood of the ball's containing cell has its center `(col+0.5, row+0.5)`
at distance below `0.35 + radius` from the ball center. -/
def holeDetectedSpec (b : BallState) (g : Grid) : Prop :=
  ∃ row col : ℤ,
    ⌊b.y⌋ - 1 ≤ row ∧ row ≤ ⌊b.y⌋ + 1 ∧ ⌊b.x⌋ - 1 ≤ col ∧ col ≤ ⌊b.x⌋ + 1 ∧
    g.InBounds row col ∧ g.cellAt row col = HOLE ∧
    hypot (b.x - ((col : ℝ) + 0.5)) (b.y - ((row : ℝ) + 0.5)) < 0.35 + b.radius

/-- Spec wording of goal detection: the (in-bounds) cell containing the ball
center has type GOAL and the ball center is within 0.45 of its center. -/
def goalDetectedSpec (b : BallState) (g : Grid) : Prop :=
  g.InBounds ⌊b.y⌋ ⌊b.x⌋ ∧ g.cellAt ⌊b.y⌋ ⌊b.x⌋ = GOAL ∧
    hypot (b.x - ((⌊b.x⌋ : ℝ) + 0.5)) (b.y - ((⌊b.y⌋ : ℝ) + 0.5)) < 0.45

/-- The terminal-flag contract of one physics step, phrased after the spec. -/
def stepFlagsSpec (b : BallState) (g : Grid) : Prop :=
  ((simulatePhysicsStep b g).hitHole ↔
    holeDetectedSpec (simulatePhysicsStep b g).ball g) ∧
  ((simulatePhysicsStep b g).reachedGoal ↔
    (¬(simulatePhysicsStep b g).hitHole ∧
      goalDetectedSpec (simulatePhysicsStep b g).ball g)) ∧
  ¬((simulatePhysicsStep b g).hitHole ∧ (simulatePhysicsStep b g).reachedGoal)

/-- Well-formedness of a hydrated grid: declared dimensions and cell codes
confined to `{0, 1, 2, 3}`. -/
def gridWellFormed (lvl : HydratedLevel) : Prop :=
  lvl.grid.length = lvl.height ∧
  (∀ row ∈ lvl.grid, row.length = lvl.width) ∧
  (∀ row ∈ lvl.grid, ∀ c ∈ row, c ≤ 3)

instance (lvl : HydratedLevel) : Decidable (gridWellFormed lvl) := by
  unfold gridWellFormed; infer_instance

/-- Ball states reachable from construction or reset through `applyTilt` and
`simulatePhysicsStep` against arbitrary grids. -/
inductive Reachable : BallState → Prop where
  | init (r : ℝ) : Reachable (BallState.init r)
  | reset (b : BallState) (x y : ℝ) : Reachable b → Reachable (b.reset x y)
  | tilt (b : BallState) (ax ay : ℝ) : Reachable b → Reachable (b.applyTilt ax ay)
  | step (b : BallState) (g : Grid) : Reachable b → Reachable (simulatePhysicsStep b g).ball

/-! ## Concrete fixtures for witness theorems -/

/-- A 3×3 grid whose only WALL cell is the center cell `(row 1, col 1)`. -/
def gridHeadOn : Grid :=
  { rows := 3, cols := 3, cell := fun r c => if r = 1 ∧ c = 1 then WALL else EMPTY }

/-- A ball heading left at the center wall of `gridHeadOn`; after `integrate`
it sits at `(2.2, 1.5)`, overlapping the wall cell. -/
noncomputable def ballHeadOn : BallState :=
  { x := 2.296, y := 1.5, vx := -0.1, vy := 0, radius := 0.35 }

/-- `ballHeadOn` after `integrate`: at `(2.2, 1.5)` with velocity
`(-0.096, 0)`. -/
noncomputable def ballHeadOn1 : BallState :=
  { x := 2.2, y := 1.5, vx := -0.096, vy := 0, radius := 0.35 }

/-- `ballHeadOn1` after resolving the wall cell `(1, 1)`: pushed out to
`(2.35, 1.5)` with reflected velocity `(0.0768, 0)`. -/
noncomputable def ballHeadOn2 : BallState :=
  { x := 2.35, y := 1.5, vx := 0.0768, vy := 0, radius := 0.35 }

/-- A 2×2 grid with a HOLE at `(row 0, col 0)` and GOAL at `(row 1, col 1)`. -/
def gridFlags : Grid :=
  { rows := 2, cols := 2
    cell := fun r c =>
      if r = 0 ∧ c = 0 then HOLE else if r = 1 ∧ c = 1 then GOAL else EMPTY }

/-- A resting ball used by the step-flag and bounds witnesses. -/
noncomputable def ballFlags : BallState :=
  { x := 0.5, y := 0.5, vx := 0, vy := 0, radius := 0.35 }

/-- A resting ball used by the bounds witness. -/
noncomputable def ballBounds : BallState :=
  { x := 7.25, y := -3.5, vx := 0, vy := 0, radius := 0.35 }

/-- A 3×3 grid with no walls or holes at all. -/
def gridEmpty : Grid := { rows := 3, cols := 3, cell := fun _ _ => EMPTY }

/-- A fast ball used by the `applyTilt` witness: adding the acceleration to
`vx` pushes the speed over `maxSpeed`. -/
noncomputable def ballFast : BallState :=
  { x := 0, y := 0, vx := 0.25, vy := 0, radius := 0.35 }

/-- A ball overlapping wall cell `(0, 0)`, used by the energy witness. -/
noncomputable def ballEnergy : BallState :=
  { x := 1.2, y := 0.5, vx := -0.2, vy := 0, radius := 0.35 }

/-- Keyboard-mode input state at rest. -/
noncomputable def kbState : InputState :=
  { tiltX := 0, tiltY := 0, mode := Mode.keyboard, calBeta := 0, calGamma := 0
    isCalibrated := false, deviceOrientationActive := false
    lastBeta := 0, lastGamma := 0 }

/-- Sensor-mode input state with an active orientation listener whose last
raw reading was `(beta = 12, gamma = -6)`. -/
noncomputable def sensState : InputState :=
  { tiltX := 0.3, tiltY := -0.2, mode := Mode.sensor, calBeta := 0, calGamma := 0
    isCalibrated := false, deviceOrientationActive := true
    lastBeta := 12, lastGamma := -6 }

/-! ## Basic `hypot` lemmas -/

theorem hypot_nonneg (a b : ℝ) : 0 ≤ hypot a b := Real.sqrt_nonneg _

theorem sq_hypot (a b : ℝ) : hypot a b ^ 2 = a ^ 2 + b ^ 2 :=
  Real.sq_sqrt (by positivity)

theorem hypot_eq_zero_iff (a b : ℝ) : hypot a b = 0 ↔ a = 0 ∧ b = 0 := by
  unfold hypot
  rw [Real.sqrt_eq_zero (by positivity)]
  constructor
  · intro h
    constructor <;> nlinarith [sq_nonneg a, sq_nonneg b]
  · rintro ⟨rfl, rfl⟩; ring

theorem hypot_zero : hypot 0 0 = 0 := by
  rw [hypot_eq_zero_iff]; exact ⟨rfl, rfl⟩

/-- Evaluation helper: if `a² + b² = c²` with `c ≥ 0` then `hypot a b = c`. -/
theorem hypot_eval {a b c : ℝ} (hc : 0 ≤ c) (h : a ^ 2 + b ^ 2 = c ^ 2) :
    hypot a b = c := by
  rw [hypot, h, Real.sqrt_sq hc]

/-- `hypot` is monotone in the absolute values of its arguments. -/
theorem hypot_mono {a b c d : ℝ} (h1 : |a| ≤ |c|) (h2 : |b| ≤ |d|) :
    hypot a b ≤ hypot c d := by
  apply Real.sqrt_le_sqrt
  have ha : a ^ 2 ≤ c ^ 2 := by nlinarith [sq_abs a, sq_abs c, abs_nonneg a]
  have hb : b ^ 2 ≤ d ^ 2 := by nlinarith [sq_abs b, sq_abs d, abs_nonneg b]
  linarith

/-- Scaling both arguments by a common nonnegative factor scales `hypot`. -/
theorem hypot_scale (a b k : ℝ) (hk : 0 ≤ k) :
    hypot (a * k) (b * k) = hypot a b * k := by
  unfold hypot
  rw [show (a * k) ^ 2 + (b * k) ^ 2 = (a ^ 2 + b ^ 2) * k ^ 2 by ring,
    Real.sqrt_mul (by positivity), Real.sqrt_sq hk]

/-! ## Speed lemmas for the ball operations -/

/-- The friction-and-deadzone update never increases a velocity component. -/
theorem frictionDead_abs_le (v : ℝ) : |frictionDead v| ≤ |v| := by
  unfold frictionDead
  by_cases h : |v * friction| < 0.001
  · rw [if_pos h]; simp
  · rw [if_neg h, abs_mul]
    have h1 : |friction| = 0.96 := by rw [friction]; norm_num
    nlinarith [abs_nonneg v]

/-- `applyTilt` always leaves the speed at or below `maxSpeed`. -/
theorem applyTilt_speed_le (b : BallState) (ax ay : ℝ) :
    hypot (b.applyTilt ax ay).vx (b.applyTilt ax ay).vy ≤ maxSpeed := by
  simp only [BallState.applyTilt]
  by_cases h : maxSpeed < hypot (b.vx + clamp1 ax * acceleration) (b.vy + clamp1 ay * acceleration)
  · rw [if_pos h]
    have h0 : 0 < hypot (b.vx + clamp1 ax * acceleration) (b.vy + clamp1 ay * acceleration) :=
      lt_trans (by rw [maxSpeed]; norm_num) h
    have hk : 0 ≤ maxSpeed / hypot (b.vx + clamp1 ax * acceleration)
        (b.vy + clamp1 ay * acceleration) := by
      apply div_nonneg _ h0.le
      rw [maxSpeed]; norm_num
    simp only
    rw [hypot_scale _ _ _ hk, mul_comm, div_mul_cancel₀ _ (ne_of_gt h0)]
  · rw [if_neg h]
    simpa using le_of_not_lt h

/-- `integrate` never increases the speed. -/
theorem integrate_speed_le (b : BallState) :
    hypot b.integrate.vx b.integrate.vy ≤ hypot b.vx b.vy := by
  simp only [BallState.integrate]
  exact hypot_mono (frictionDead_abs_le _) (frictionDead_abs_le _)

/-- The collision normal is a unit vector whenever the distance is nonzero. -/
theorem wallN_unit (b : BallState) (rc : ℤ × ℤ) (h : wallDist b rc ≠ 0) :
    wallNx b rc ^ 2 + wallNy b rc ^ 2 = 1 := by
  have hs : wallDist b rc ^ 2 = (b.x - closestX b rc) ^ 2 + (b.y - closestY b rc) ^ 2 :=
    sq_hypot _ _
  rw [wallNx, wallNy, div_pow, div_pow, div_add_div_same, ← hs]
  exact div_self (pow_ne_zero 2 h)

/-- A single wall-cell resolution never increases the speed. -/
theorem resolveWallCell_speed_le (b : BallState) (rc : ℤ × ℤ) :
    hypot (resolveWallCell b rc).vx (resolveWallCell b rc).vy ≤ hypot b.vx b.vy := by
  unfold resolveWallCell
  by_cases h1 : wallDist b rc < b.radius ∧ wallDist b rc ≠ 0
  · rw [if_pos h1]
    by_cases h2 : wallDot b rc < 0
    · rw [if_pos h2]
      simp only
      have hn : wallNx b rc ^ 2 + wallNy b rc ^ 2 = 1 := wallN_unit b rc h1.2
      have key : (b.vx - 1.8 * wallDot b rc * wallNx b rc) ^ 2 +
          (b.vy - 1.8 * wallDot b rc * wallNy b rc) ^ 2 =
          b.vx ^ 2 + b.vy ^ 2 - 0.36 * wallDot b rc ^ 2 := by
        have hD : wallDot b rc = b.vx * wallNx b rc + b.vy * wallNy b rc := rfl
        rw [hD]
        linear_combination (3.24 * (b.vx * wallNx b rc + b.vy * wallNy b rc) ^ 2) * hn
      unfold hypot
      apply Real.sqrt_le_sqrt
      rw [key]
      nlinarith [sq_nonneg (wallDot b rc)]
    · rw [if_neg h2]
  · rw [if_neg h1]

/-- Folding wall resolutions over any candidate list never increases speed. -/
theorem foldl_resolve_speed_le (l : List (ℤ × ℤ)) (b : BallState) :
    hypot (l.foldl resolveWallCell b).vx (l.foldl resolveWallCell b).vy ≤
      hypot b.vx b.vy := by
  induction l generalizing b with
  | nil => simp
  | cons hd tl ih =>
    simp only [List.foldl_cons]
    exact le_trans (ih (resolveWallCell b hd)) (resolveWallCell_speed_le b hd)

/-- The whole wall-resolution pass never increases speed. -/
theorem resolveWallCollisions_speed_le (b : BallState) (g : Grid) :
    hypot (resolveWallCollisions b g).vx (resolveWallCollisions b g).vy ≤
      hypot b.vx b.vy :=
  foldl_resolve_speed_le _ b

/-- One full physics step never increases speed. -/
theorem step_speed_le (b : BallState) (g : Grid) :
    hypot (simulatePhysicsStep b g).ball.vx (simulatePhysicsStep b g).ball.vy ≤
      hypot b.vx b.vy := by
  have hb : (simulatePhysicsStep b g).ball =
      clampToBounds (resolveWallCollisions b.integrate g) g := rfl
  have hv : (clampToBounds (resolveWallCollisions b.integrate g) g).vx =
      (resolveWallCollisions b.integrate g).vx := rfl
  have hw : (clampToBounds (resolveWallCollisions b.integrate g) g).vy =
      (resolveWallCollisions b.integrate g).vy := rfl
  rw [hb, hv, hw]
  exact le_trans (resolveWallCollisions_speed_le _ g) (integrate_speed_le b)

/-- A wall-cell resolution leaves the radius unchanged. -/
theorem resolveWallCell_radius (b : BallState) (rc : ℤ × ℤ) :
    (resolveWallCell b rc).radius = b.radius := by
  unfold resolveWallCell
  split_ifs <;> rfl

/-- The wall-resolution pass leaves the radius unchanged. -/
theorem foldl_resolve_radius (l : List (ℤ × ℤ)) (b : BallState) :
    (l.foldl resolveWallCell b).radius = b.radius := by
  induction l generalizing b with
  | nil => rfl
  | cons hd tl ih => rw [List.foldl_cons, ih, resolveWallCell_radius]

/-- A full step leaves the radius unchanged. -/
theorem step_ball_radius (b : BallState) (g : Grid) :
    (simulatePhysicsStep b g).ball.radius = b.radius := by
  have hb : (simulatePhysicsStep b g).ball.radius =
      (resolveWallCollisions b.integrate g).radius := rfl
  rw [hb, resolveWallCollisions, foldl_resolve_radius]
  rfl

/-! ## Claim theorems -/

/-- C1: Speed invariant — every ball state reachable by construction or reset
followed by `applyTilt` / `simulatePhysicsStep` against arbitrary grids has
speed `hypot (vx, vy) ≤ maxSpeed (0.25)`; neither the friction-and-deadzone
integration, nor sequential wall reflections with restitution 1.8, nor the
bounds clamp can push the speed above `maxSpeed`. -/
theorem C1_speed_invariant (b : BallState) (h : Reachable b) :
    hypot b.vx b.vy ≤ maxSpeed := by
  induction h with
  | init r =>
    have h0 : hypot 0 0 ≤ maxSpeed := by rw [hypot_zero, maxSpeed]; norm_num
    simpa [BallState.init] using h0
  | reset b x y _ _ =>
    have h0 : hypot 0 0 ≤ maxSpeed := by rw [hypot_zero, maxSpeed]; norm_num
    simpa [BallState.reset] using h0
  | tilt b ax ay _ _ => exact applyTilt_speed_le b ax ay
  | step b g _ ih => exact le_trans (step_speed_le b g) ih

/-- Witness for C1: the freshly constructed ball is reachable and satisfies
the speed bound. -/
theorem C1_speed_invariant_witness :
    Reachable (BallState.init 0.35) ∧
      hypot (BallState.init 0.35).vx (BallState.init 0.35).vy ≤ maxSpeed :=
  ⟨Reachable.init 0.35, C1_speed_invariant _ (Reachable.init 0.35)⟩

/-- C4: `applyControl` (= `BallState.applyTilt`) clamps the inputs to
`[-1, 1]`, adds `clamped * acceleration` to each velocity component, rescales
both components by `maxSpeed / speed` (a positive factor, hence direction is
preserved and the final speed is exactly `maxSpeed`) when the incremented
speed exceeds `maxSpeed`, and leaves position and radius untouched. -/
theorem C4_applyControl_postcondition (b : BallState) (cx cy : ℝ) :
    (b.applyTilt cx cy).x = b.x ∧ (b.applyTilt cx cy).y = b.y ∧
    (b.applyTilt cx cy).radius = b.radius ∧
    (maxSpeed < hypot (b.vx + clamp1 cx * acceleration) (b.vy + clamp1 cy * acceleration) →
      (b.applyTilt cx cy).vx = (b.vx + clamp1 cx * acceleration) *
        (maxSpeed / hypot (b.vx + clamp1 cx * acceleration) (b.vy + clamp1 cy * acceleration)) ∧
      (b.applyTilt cx cy).vy = (b.vy + clamp1 cy * acceleration) *
        (maxSpeed / hypot (b.vx + clamp1 cx * acceleration) (b.vy + clamp1 cy * acceleration)) ∧
      hypot (b.applyTilt cx cy).vx (b.applyTilt cx cy).vy = maxSpeed ∧
      0 < maxSpeed / hypot (b.vx + clamp1 cx * acceleration) (b.vy + clamp1 cy * acceleration)) ∧
    (¬ maxSpeed < hypot (b.vx + clamp1 cx * acceleration) (b.vy + clamp1 cy * acceleration) →
      (b.applyTilt cx cy).vx = b.vx + clamp1 cx * acceleration ∧
      (b.applyTilt cx cy).vy = b.vy + clamp1 cy * acceleration) := by
  by_cases h : maxSpeed <
      hypot (b.vx + clamp1 cx * acceleration) (b.vy + clamp1 cy * acceleration)
  · have h0 : 0 < hypot (b.vx + clamp1 cx * acceleration) (b.vy + clamp1 cy * acceleration) :=
      lt_trans (by rw [maxSpeed]; norm_num) h
    have hk : 0 < maxSpeed / hypot (b.vx + clamp1 cx * acceleration)
        (b.vy + clamp1 cy * acceleration) :=
      div_pos (by rw [maxSpeed]; norm_num) h0
    have hx : (b.applyTilt cx cy).x = b.x := by
      simp only [BallState.applyTilt, if_pos h]
    have hy : (b.applyTilt cx cy).y = b.y := by
      simp only [BallState.applyTilt, if_pos h]
    have hrad : (b.applyTilt cx cy).radius = b.radius := by
      simp only [BallState.applyTilt, if_pos h]
    have hvx : (b.applyTilt cx cy).vx = (b.vx + clamp1 cx * acceleration) *
        (maxSpeed / hypot (b.vx + clamp1 cx * acceleration) (b.vy + clamp1 cy * acceleration)) := by
      simp only [BallState.applyTilt, if_pos h]
    have hvy : (b.applyTilt cx cy).vy = (b.vy + clamp1 cy * acceleration) *
        (maxSpeed / hypot (b.vx + clamp1 cx * acceleration) (b.vy + clamp1 cy * acceleration)) := by
      simp only [BallState.applyTilt, if_pos h]
    have hs : hypot (b.applyTilt cx cy).vx (b.applyTilt cx cy).vy = maxSpeed := by
      rw [hvx, hvy, hypot_scale _ _ _ hk.le, mul_comm, div_mul_cancel₀ _ (ne_of_gt h0)]
    exact ⟨hx, hy, hrad, fun _ => ⟨hvx, hvy, hs, hk⟩, fun hc => absurd h hc⟩
  · have hx : (b.applyTilt cx cy).x = b.x := by
      simp only [BallState.applyTilt, if_neg h]
    have hy : (b.applyTilt cx cy).y = b.y := by
      simp only [BallState.applyTilt, if_neg h]
    have hrad : (b.applyTilt cx cy).radius = b.radius := by
      simp only [BallState.applyTilt, if_neg h]
    have hvx : (b.applyTilt cx cy).vx = b.vx + clamp1 cx * acceleration := by
      simp only [BallState.applyTilt, if_neg h]
    have hvy : (b.applyTilt cx cy).vy = b.vy + clamp1 cy * acceleration := by
      simp only [BallState.applyTilt, if_neg h]
    exact ⟨hx, hy, hrad, fun hc => absurd hc h, fun _ => ⟨hvx, hvy⟩⟩

/-- Witness for C4: a ball with `vx = maxSpeed` pushed further right exceeds
`maxSpeed` before rescaling, and the rescaled speed equals `maxSpeed`. -/
theorem C4_applyControl_postcondition_witness :
    maxSpeed < hypot (ballFast.vx + clamp1 1 * acceleration)
      (ballFast.vy + clamp1 0 * acceleration) ∧
    hypot (ballFast.applyTilt 1 0).vx (ballFast.applyTilt 1 0).vy = maxSpeed ∧
    (ballFast.applyTilt 1 0).x = ballFast.x := by
  have hcx : clamp1 1 = 1 := by rw [clamp1]; norm_num
  have hcy : clamp1 0 = 0 := by rw [clamp1]; norm_num
  have hvx : ballFast.vx + clamp1 1 * acceleration = 0.262 := by
    rw [hcx, acceleration, ballFast]; norm_num
  have hvy : ballFast.vy + clamp1 0 * acceleration = 0 := by
    rw [hcy, ballFast]; norm_num
  have hh : hypot (ballFast.vx + clamp1 1 * acceleration)
      (ballFast.vy + clamp1 0 * acceleration) = 0.262 := by
    rw [hvx, hvy]; exact hypot_eval (by norm_num) (by norm_num)
  have hm : maxSpeed < hypot (ballFast.vx + clamp1 1 * acceleration)
      (ballFast.vy + clamp1 0 * acceleration) := by
    rw [hh, maxSpeed]; norm_num
  have h4 := C4_applyControl_postcondition ballFast 1 0
  exact ⟨hm, (h4.2.2.2.1 hm).2.2.1, h4.1⟩

/-- C5: after `simulatePhysicsStep` on a non-empty grid whose width and
height are at least twice the ball radius, the ball center lies in
`[radius, width - radius] × [radius, height - radius]`, and the detection
phases after the clamp do not move the ball. -/
theorem C5_post_step_bounds (b : BallState) (g : Grid)
    (_hr : 1 ≤ g.rows) (_hc : 1 ≤ g.cols)
    (hw : 2 * b.radius ≤ (g.cols : ℝ)) (hh : 2 * b.radius ≤ (g.rows : ℝ)) :
    b.radius ≤ (simulatePhysicsStep b g).ball.x ∧
    (simulatePhysicsStep b g).ball.x ≤ (g.cols : ℝ) - b.radius ∧
    b.radius ≤ (simulatePhysicsStep b g).ball.y ∧
    (simulatePhysicsStep b g).ball.y ≤ (g.rows : ℝ) - b.radius ∧
    (simulatePhysicsStep b g).ball =
      clampToBounds (resolveWallCollisions b.integrate g) g := by
  have hrad : (resolveWallCollisions b.integrate g).radius = b.radius := by
    rw [resolveWallCollisions, foldl_resolve_radius]; rfl
  have hx : (simulatePhysicsStep b g).ball.x =
      max (resolveWallCollisions b.integrate g).radius
        (min ((g.cols : ℝ) - (resolveWallCollisions b.integrate g).radius)
          (resolveWallCollisions b.integrate g).x) := rfl
  have hy : (simulatePhysicsStep b g).ball.y =
      max (resolveWallCollisions b.integrate g).radius
        (min ((g.rows : ℝ) - (resolveWallCollisions b.integrate g).radius)
          (resolveWallCollisions b.integrate g).y) := rfl
  refine ⟨?_, ?_, ?_, ?_, rfl⟩
  · rw [hx, hrad]; exact le_max_left _ _
  · rw [hx, hrad]; exact max_le (by linarith) (min_le_left _ _)
  · rw [hy, hrad]; exact le_max_left _ _
  · rw [hy, hrad]; exact max_le (by linarith) (min_le_left _ _)

/-- Witness for C5: a ball far outside an all-empty 3×3 grid is clamped back
into the radius-inset box by one step. -/
theorem C5_post_step_bounds_witness :
    (1 ≤ gridEmpty.rows ∧ 1 ≤ gridEmpty.cols ∧
      2 * ballBounds.radius ≤ (gridEmpty.cols : ℝ) ∧
      2 * ballBounds.radius ≤ (gridEmpty.rows : ℝ)) ∧
    (ballBounds.radius ≤ (simulatePhysicsStep ballBounds gridEmpty).ball.x ∧
      (simulatePhysicsStep ballBounds gridEmpty).ball.x ≤
        (gridEmpty.cols : ℝ) - ballBounds.radius ∧
      ballBounds.radius ≤ (simulatePhysicsStep ballBounds gridEmpty).ball.y ∧
      (simulatePhysicsStep ballBounds gridEmpty).ball.y ≤
        (gridEmpty.rows : ℝ) - ballBounds.radius ∧
      (simulatePhysicsStep ballBounds gridEmpty).ball =
        clampToBounds (resolveWallCollisions ballBounds.integrate gridEmpty) gridEmpty) := by
  have h1 : 1 ≤ gridEmpty.rows := by decide
  have h2 : 1 ≤ gridEmpty.cols := by decide
  have h3 : 2 * ballBounds.radius ≤ (gridEmpty.cols : ℝ) := by
    norm_num [ballBounds, gridEmpty]
  have h4 : 2 * ballBounds.radius ≤ (gridEmpty.rows : ℝ) := by
    norm_num [ballBounds, gridEmpty]
  exact ⟨⟨h1, h2, h3, h4⟩, C5_post_step_bounds ballBounds gridEmpty h1 h2 h3 h4⟩

/-- C10: wall resolution never gains energy — a single wall-cell resolution,
and hence the whole sequential wall-resolution pass over any grid, never
increases the ball's speed `hypot (vx, vy)`. -/
theorem C10_no_energy_gain :
    (∀ (b : BallState) (rc : ℤ × ℤ),
      hypot (resolveWallCell b rc).vx (resolveWallCell b rc).vy ≤ hypot b.vx b.vy) ∧
    (∀ (b : BallState) (g : Grid),
      hypot (resolveWallCollisions b g).vx (resolveWallCollisions b g).vy ≤
        hypot b.vx b.vy) :=
  ⟨resolveWallCell_speed_le, resolveWallCollisions_speed_le⟩

/-- Witness for C10 at a ball overlapping wall cell `(0, 0)` and at the empty
3×3 grid. -/
theorem C10_no_energy_gain_witness :
    hypot (resolveWallCell ballEnergy (0, 0)).vx (resolveWallCell ballEnergy (0, 0)).vy ≤
      hypot ballEnergy.vx ballEnergy.vy ∧
    hypot (resolveWallCollisions ballEnergy gridEmpty).vx
        (resolveWallCollisions ballEnergy gridEmpty).vy ≤
      hypot ballEnergy.vx ballEnergy.vy :=
  ⟨C10_no_energy_gain.1 ballEnergy (0, 0), C10_no_energy_gain.2 ballEnergy gridEmpty⟩

/-! ## Input-normalizer lemmas and claims -/

/-- `normalizeTilt 0 45 = 0` — a zero reading normalizes to zero. -/
theorem normalizeTilt_zero45 : normalizeTilt 0 45 = 0 := by
  rw [normalizeTilt]
  norm_num [min_def, max_def]

/-- Smoothing a zero target from a zero tilt leaves the tilt at zero in
either mode. -/
theorem applySmoothedTilt_zero_of_rest (s : InputState)
    (hx : s.tiltX = 0) (hy : s.tiltY = 0) :
    (applySmoothedTilt s 0 0).tiltX = 0 ∧ (applySmoothedTilt s 0 0).tiltY = 0 := by
  by_cases h : s.mode = Mode.keyboard ∧ (0 : ℝ) = 0 ∧ (0 : ℝ) = 0
  · rw [applySmoothedTilt, if_pos h]
    exact ⟨rfl, rfl⟩
  · rw [applySmoothedTilt, if_neg h]
    constructor
    · show s.tiltX * (1 - smoothingFor s.mode) + 0 * smoothingFor s.mode = 0
      rw [hx]; ring
    · show s.tiltY * (1 - smoothingFor s.mode) + 0 * smoothingFor s.mode = 0
      rw [hy]; ring

/-- The tilt produced by `handleOrientation` is the smoothed tilt of the
normalized, calibration-corrected reading (the final sensor-mode switch does
not touch the tilt). -/
theorem handleOrientation_tilt_eq (s : InputState) (ob og : Option ℝ) :
    (handleOrientation s ob og).tiltX =
      (applySmoothedTilt { s with lastBeta := sanitize ob, lastGamma := sanitize og }
        (normalizeTilt (if s.isCalibrated then sanitize og - s.calGamma else sanitize og) 45)
        (normalizeTilt (if s.isCalibrated then sanitize ob - s.calBeta else sanitize ob) 45)).tiltX ∧
    (handleOrientation s ob og).tiltY =
      (applySmoothedTilt { s with lastBeta := sanitize ob, lastGamma := sanitize og }
        (normalizeTilt (if s.isCalibrated then sanitize og - s.calGamma else sanitize og) 45)
        (normalizeTilt (if s.isCalibrated then sanitize ob - s.calBeta else sanitize ob) 45)).tiltY := by
  simp only [handleOrientation]
  by_cases h : (applySmoothedTilt { s with lastBeta := sanitize ob, lastGamma := sanitize og }
      (normalizeTilt (if s.isCalibrated then sanitize og - s.calGamma else sanitize og) 45)
      (normalizeTilt (if s.isCalibrated then sanitize ob - s.calBeta else sanitize ob) 45)).mode ≠
        Mode.sensor
  · rw [if_pos h]; exact ⟨rfl, rfl⟩
  · rw [if_neg h]; exact ⟨rfl, rfl⟩

/-- C6: smoothing law — `applySmoothedTilt` snaps the tilt to `(0, 0)` in
keyboard mode on an exactly-zero target, and otherwise performs
`tilt * (1 - α) + target * α` per component, with `α = 0.75` in keyboard mode
and `α = 0.4` otherwise. -/
theorem C6_smoothing_law (s : InputState) (tX tY : ℝ) :
    ((s.mode = Mode.keyboard ∧ tX = 0 ∧ tY = 0) →
      (applySmoothedTilt s tX tY).tiltX = 0 ∧ (applySmoothedTilt s tX tY).tiltY = 0) ∧
    (¬(s.mode = Mode.keyboard ∧ tX = 0 ∧ tY = 0) →
      (applySmoothedTilt s tX tY).tiltX =
        s.tiltX * (1 - smoothingFor s.mode) + tX * smoothingFor s.mode ∧
      (applySmoothedTilt s tX tY).tiltY =
        s.tiltY * (1 - smoothingFor s.mode) + tY * smoothingFor s.mode) ∧
    (s.mode = Mode.keyboard → smoothingFor s.mode = 0.75) ∧
    (s.mode ≠ Mode.keyboard → smoothingFor s.mode = 0.4) := by
  refine ⟨?_, ?_, ?_, ?_⟩
  · intro hc
    rw [applySmoothedTilt, if_pos hc]
    exact ⟨rfl, rfl⟩
  · intro hc
    rw [applySmoothedTilt, if_neg hc]
    exact ⟨rfl, rfl⟩
  · intro hm; rw [smoothingFor, if_pos hm]
  · intro hm; rw [smoothingFor, if_neg hm]

/-- Witness for C6: in keyboard mode from rest, target `(1, 0)` yields tilt
`(0.75, 0)` after one call, and target `(0, 0)` snaps the tilt to `(0, 0)`. -/
theorem C6_smoothing_law_witness :
    ¬(kbState.mode = Mode.keyboard ∧ (1 : ℝ) = 0 ∧ (0 : ℝ) = 0) ∧
    (applySmoothedTilt kbState 1 0).tiltX = 0.75 ∧
    (applySmoothedTilt kbState 1 0).tiltY = 0 ∧
    (kbState.mode = Mode.keyboard ∧ (0 : ℝ) = 0 ∧ (0 : ℝ) = 0) ∧
    (applySmoothedTilt kbState 0 0).tiltX = 0 ∧
    (applySmoothedTilt kbState 0 0).tiltY = 0 := by
  have hm : kbState.mode = Mode.keyboard := rfl
  have hn : ¬(kbState.mode = Mode.keyboard ∧ (1 : ℝ) = 0 ∧ (0 : ℝ) = 0) := by
    intro hcon
    exact absurd hcon.2.1 (by norm_num)
  have hs : smoothingFor kbState.mode = 0.75 := (C6_smoothing_law kbState 1 0).2.2.1 hm
  have h1 := (C6_smoothing_law kbState 1 0).2.1 hn
  have h2 := (C6_smoothing_law kbState 0 0).1 ⟨hm, rfl, rfl⟩
  refine ⟨hn, ?_, ?_, ⟨hm, rfl, rfl⟩, h2.1, h2.2⟩
  · rw [h1.1, hs]
    norm_num [kbState]
  · rw [h1.2, hs]
    norm_num [kbState]

/-- C7: calibration round-trip — with an active orientation sensor whose last
raw reading is `(beta, gamma)`, `calibrate()` zeroes the tilt, and a
subsequent orientation event with the very same raw reading normalizes to a
`(0, 0)` target and leaves the tilt at `(0, 0)`. -/
theorem C7_calibration_roundtrip (s : InputState) (bb gg : ℝ)
    (hAct : s.deviceOrientationActive = true)
    (hB : s.lastBeta = bb) (hG : s.lastGamma = gg) :
    (calibrate s).tiltX = 0 ∧ (calibrate s).tiltY = 0 ∧
    normalizeTilt (bb - (calibrate s).calBeta) 45 = 0 ∧
    normalizeTilt (gg - (calibrate s).calGamma) 45 = 0 ∧
    (handleOrientation (calibrate s) (some bb) (some gg)).tiltX = 0 ∧
    (handleOrientation (calibrate s) (some bb) (some gg)).tiltY = 0 := by
  have hcal : calibrate s =
      { s with
        calBeta := s.lastBeta
        calGamma := s.lastGamma
        isCalibrated := true
        tiltX := 0
        tiltY := 0 } := by
    rw [calibrate, if_pos hAct]
  have ht1 : (calibrate s).tiltX = 0 := by rw [hcal]
  have ht2 : (calibrate s).tiltY = 0 := by rw [hcal]
  have hcb : (calibrate s).calBeta = bb := by rw [hcal]; exact hB
  have hcg : (calibrate s).calGamma = gg := by rw [hcal]; exact hG
  have hIsCal : (calibrate s).isCalibrated = true := by rw [hcal]
  have hnb : normalizeTilt (bb - (calibrate s).calBeta) 45 = 0 := by
    rw [hcb, sub_self]; exact normalizeTilt_zero45
  have hng : normalizeTilt (gg - (calibrate s).calGamma) 45 = 0 := by
    rw [hcg, sub_self]; exact normalizeTilt_zero45
  have hmain := handleOrientation_tilt_eq (calibrate s) (some bb) (some gg)
  have hargB : (if (calibrate s).isCalibrated then sanitize (some bb) - (calibrate s).calBeta
      else sanitize (some bb)) = 0 := by
    rw [hIsCal]
    simp [sanitize, hcb]
  have hargG : (if (calibrate s).isCalibrated then sanitize (some gg) - (calibrate s).calGamma
      else sanitize (some gg)) = 0 := by
    rw [hIsCal]
    simp [sanitize, hcg]
  have hnormB : normalizeTilt (if (calibrate s).isCalibrated
      then sanitize (some bb) - (calibrate s).calBeta else sanitize (some bb)) 45 = 0 := by
    rw [hargB]; exact normalizeTilt_zero45
  have hnormG : normalizeTilt (if (calibrate s).isCalibrated
      then sanitize (some gg) - (calibrate s).calGamma else sanitize (some gg)) 45 = 0 := by
    rw [hargG]; exact normalizeTilt_zero45
  have hrest := applySmoothedTilt_zero_of_rest
    { calibrate s with lastBeta := sanitize (some bb), lastGamma := sanitize (some gg) }
    ht1 ht2
  constructor
  · exact ht1
  constructor
  · exact ht2
  constructor
  · exact hnb
  constructor
  · exact hng
  constructor
  · rw [hmain.1, hnormB, hnormG]
    exact hrest.1
  · rw [hmain.2, hnormB, hnormG]
    exact hrest.2

/-- Witness for C7 at the raw reading `(beta = 12, gamma = -6)`. -/
theorem C7_calibration_roundtrip_witness :
    (sensState.deviceOrientationActive = true ∧ sensState.lastBeta = 12 ∧
      sensState.lastGamma = -6) ∧
    ((calibrate sensState).tiltX = 0 ∧ (calibrate sensState).tiltY = 0 ∧
      normalizeTilt (12 - (calibrate sensState).calBeta) 45 = 0 ∧
      normalizeTilt (-6 - (calibrate sensState).calGamma) 45 = 0 ∧
      (handleOrientation (calibrate sensState) (some 12) (some (-6))).tiltX = 0 ∧
      (handleOrientation (calibrate sensState) (some 12) (some (-6))).tiltY = 0) :=
  ⟨⟨rfl, rfl, rfl⟩, C7_calibration_roundtrip sensState 12 (-6) rfl rfl rfl⟩

/-- C8: `normalizeTilt` clamps the value to `[-m, m]`, divides by `m`, snaps
quotients of magnitude below 0.01 to zero, and always returns a value in
`[-1, 1]`. -/
theorem C8_normalizeTilt_spec (v m : ℝ) (hm : 0 < m) :
    normalizeTilt v m =
      (if |max (-m) (min m v) / m| < 0.01 then 0 else max (-m) (min m v) / m) ∧
    -1 ≤ normalizeTilt v m ∧ normalizeTilt v m ≤ 1 := by
  have hdef : normalizeTilt v m =
      (if |max (-m) (min m v) / m| < 0.01 then 0 else max (-m) (min m v) / m) := rfl
  have hub : max (-m) (min m v) / m ≤ 1 := by
    rw [div_le_one hm]
    exact max_le (by linarith) (min_le_left _ _)
  have hlb : -1 ≤ max (-m) (min m v) / m := by
    rw [le_div_iff₀ hm]
    have := le_max_left (-m) (min m v)
    linarith
  refine ⟨hdef, ?_, ?_⟩
  · rw [hdef]
    split_ifs
    · norm_num
    · exact hlb
  · rw [hdef]
    split_ifs
    · norm_num
    · exact hub

set_option maxRecDepth 100000 in
/-- Every authored level hydrates to a well-formed grid. -/
theorem hydrate_wf_all : ∀ base ∈ LEVELS, gridWellFormed (hydrateLevel base) := by
  decide

/-- C9: `getLevelData` errors exactly on level numbers outside `1..6`
(`TOTAL_LEVELS = 6`), and every successfully returned level carries a grid
with `height` rows, `width` columns and cell codes in `{0, 1, 2, 3}`. -/
theorem C9_level_provider (n : ℤ) :
    ((∃ msg, getLevelData n = .error msg) ↔ ¬(1 ≤ n ∧ n ≤ 6)) ∧
    (∀ lvl, getLevelData n = .ok lvl → gridWellFormed lvl) := by
  have h6 : LEVELS.length = 6 := rfl
  by_cases h : 1 ≤ n ∧ n ≤ 6
  · have hidx : (n - 1).toNat < LEVELS.length := by
      rw [h6]; omega
    have hok : getLevelData n = .ok (hydrateLevel (LEVELS.get ⟨(n - 1).toNat, hidx⟩)) := by
      rw [getLevelData, dif_pos ⟨h.1, hidx⟩]
    constructor
    · constructor
      · rintro ⟨msg, hmsg⟩
        rw [hok] at hmsg
        exact Except.noConfusion hmsg
      · intro hcon; exact absurd h hcon
    · intro lvl hl
      rw [hok] at hl
      injection hl with hinj
      rw [← hinj]
      exact hydrate_wf_all _ (List.get_mem _ _ _)
  · have hnot : ¬(1 ≤ n ∧ (n - 1).toNat < LEVELS.length) := by
      intro hcon
      apply h
      refine ⟨hcon.1, ?_⟩
      have h2 := hcon.2
      rw [h6] at h2
      omega
    have herr : getLevelData n = .error ("Level " ++ toString n ++
        " does not exist. Available levels: 1-" ++ toString LEVELS.length) := by
      rw [getLevelData, dif_neg hnot]
    constructor
    · exact ⟨fun _ => h, fun _ => ⟨_, herr⟩⟩
    · intro lvl hl
      rw [herr] at hl
      exact Except.noConfusion hl

/-- Witness for C9 at level number 3. -/
theorem C9_level_provider_witness :
    ((∃ msg, getLevelData 3 = .error msg) ↔ ¬((1 : ℤ) ≤ 3 ∧ (3 : ℤ) ≤ 6)) ∧
    (∀ lvl, getLevelData 3 = .ok lvl → gridWellFormed lvl) :=
  C9_level_provider 3

/-- Witness for C8: the three reference evaluations from the spec. -/
theorem C8_normalizeTilt_spec_witness :
    (0 : ℝ) < 45 ∧ normalizeTilt 22.5 45 = 0.5 ∧ normalizeTilt 45 45 = 1 ∧
      normalizeTilt 0.1 45 = 0 := by
  have h45 : (0 : ℝ) < 45 := by norm_num
  have e1 := (C8_normalizeTilt_spec 22.5 45 h45).1
  have e2 := (C8_normalizeTilt_spec 45 45 h45).1
  have e3 := (C8_normalizeTilt_spec 0.1 45 h45).1
  refine ⟨h45, ?_, ?_, ?_⟩
  · rw [e1, show max (-(45 : ℝ)) (min 45 22.5) = 22.5 by norm_num [min_def, max_def],
      abs_of_nonneg (by norm_num : (0 : ℝ) ≤ 22.5 / 45)]
    norm_num
  · rw [e2, show max (-(45 : ℝ)) (min 45 45) = 45 by norm_num [min_def, max_def],
      abs_of_nonneg (by norm_num : (0 : ℝ) ≤ 45 / 45)]
    norm_num
  · rw [e3, show max (-(45 : ℝ)) (min 45 0.1) = 0.1 by norm_num [min_def, max_def],
      abs_of_nonneg (by norm_num : (0 : ℝ) ≤ 0.1 / 45)]
    norm_num

/-! ## Step-flag claims -/

/-- Membership in the 3×3 neighborhood scan. -/
theorem mem_neighborCells (r c a b : ℤ) :
    (a, b) ∈ neighborCells r c ↔
      r - 1 ≤ a ∧ a ≤ r + 1 ∧ c - 1 ≤ b ∧ b ≤ c + 1 := by
  simp only [neighborCells, List.mem_flatMap, List.mem_map, List.mem_cons,
    List.mem_singleton, List.mem_nil_iff, or_false, Prod.mk.injEq]
  constructor
  · rintro ⟨dr, hdr, dc, hdc, heq1, heq2⟩
    rcases hdr with rfl | rfl | rfl <;> rcases hdc with rfl | rfl | rfl <;>
      refine ⟨by omega, by omega, by omega, by omega⟩
  · rintro ⟨h1, h2, h3, h4⟩
    exact ⟨a - r, by omega, b - c, by omega, by omega, by omega⟩

/-- Membership in the HOLE candidate list. -/
theorem mem_holeCandidates (g : Grid) (r c a b : ℤ) :
    (a, b) ∈ holeCandidates g r c ↔
      ((a, b) ∈ neighborCells r c ∧ g.InBounds a b ∧ g.cellAt a b = HOLE) := by
  simp [holeCandidates, List.mem_filter]

/-- The code-level hole check coincides with the spec-level description. -/
theorem checkHole_iff (b : BallState) (g : Grid) :
    checkHoleCollision b g ↔ holeDetectedSpec b g := by
  unfold checkHoleCollision holeDetectedSpec
  constructor
  · rintro ⟨⟨a, bb⟩, hmem, hdist⟩
    rw [mem_holeCandidates] at hmem
    obtain ⟨hnb, hib, hcell⟩ := hmem
    rw [mem_neighborCells] at hnb
    exact ⟨a, bb, hnb.1, hnb.2.1, hnb.2.2.1, hnb.2.2.2, hib, hcell, hdist⟩
  · rintro ⟨row, col, h1, h2, h3, h4, hib, hcell, hdist⟩
    refine ⟨(row, col), ?_, hdist⟩
    rw [mem_holeCandidates, mem_neighborCells]
    exact ⟨⟨h1, h2, h3, h4⟩, hib, hcell⟩

/-- C2: terminal flags of a step — `hitHole` holds exactly when, at the
post-movement/post-clamp position, some in-bounds HOLE cell of the 3×3
neighborhood has its center within `0.35 + radius` of the ball center;
`reachedGoal` holds exactly when no hole was hit, the cell containing the
ball center is a GOAL cell, and the ball center is within 0.45 of its
center; both flags are never simultaneously true. -/
theorem C2_step_flags (b : BallState) (g : Grid)
    (_h1 : 1 ≤ g.rows) (_h2 : 1 ≤ g.cols) :
    stepFlagsSpec b g := by
  unfold stepFlagsSpec
  have hh : (simulatePhysicsStep b g).hitHole =
      checkHoleCollision (simulatePhysicsStep b g).ball g := rfl
  have hg : (simulatePhysicsStep b g).reachedGoal =
      (¬(simulatePhysicsStep b g).hitHole ∧
        isBallInCellType (simulatePhysicsStep b g).ball g GOAL 0.45) := rfl
  refine ⟨?_, ?_, ?_⟩
  · rw [hh]
    exact checkHole_iff _ g
  · rw [hg]
    exact Iff.rfl
  · rw [hg]
    tauto

/-- Witness for C2 on the 2×2 hole-and-goal grid. -/
theorem C2_step_flags_witness :
    (1 ≤ gridFlags.rows ∧ 1 ≤ gridFlags.cols) ∧ stepFlagsSpec ballFlags gridFlags :=
  ⟨⟨by decide, by decide⟩, C2_step_flags ballFlags gridFlags (by decide) (by decide)⟩

/-! ## Wall-resolution geometry (claim C3) -/

/-- On a hit, the resolution moves the x coordinate out along the normal by
the penetration depth, in both restitution branches. -/
theorem resolveWallCell_hit_x (b : BallState) (rc : ℤ × ℤ)
    (h : wallDist b rc < b.radius ∧ wallDist b rc ≠ 0) :
    (resolveWallCell b rc).x = b.x + wallNx b rc * (b.radius - wallDist b rc) := by
  rw [resolveWallCell, if_pos h]
  by_cases h2 : wallDot b rc < 0
  · rw [if_pos h2]
  · rw [if_neg h2]

/-- On a hit, the resolution moves the y coordinate out along the normal by
the penetration depth, in both restitution branches. -/
theorem resolveWallCell_hit_y (b : BallState) (rc : ℤ × ℤ)
    (h : wallDist b rc < b.radius ∧ wallDist b rc ≠ 0) :
    (resolveWallCell b rc).y = b.y + wallNy b rc * (b.radius - wallDist b rc) := by
  rw [resolveWallCell, if_pos h]
  by_cases h2 : wallDot b rc < 0
  · rw [if_pos h2]
  · rw [if_neg h2]

/-- On a hit with inward normal velocity, the restitution update is applied. -/
theorem resolveWallCell_hit_v (b : BallState) (rc : ℤ × ℤ)
    (h : wallDist b rc < b.radius ∧ wallDist b rc ≠ 0) (h2 : wallDot b rc < 0) :
    (resolveWallCell b rc).vx = b.vx - 1.8 * wallDot b rc * wallNx b rc ∧
    (resolveWallCell b rc).vy = b.vy - 1.8 * wallDot b rc * wallNy b rc := by
  rw [resolveWallCell, if_pos h, if_pos h2]
  exact ⟨rfl, rfl⟩

/-- Friction-and-deadzone evaluation at `v = -0.1`. -/
theorem frictionDead_neg01 : frictionDead (-0.1 : ℝ) = -0.096 := by
  have hcond : ¬ |(-0.1 : ℝ) * friction| < 0.001 := by
    rw [friction]; norm_num [abs_lt]
  rw [frictionDead, if_neg hcond, friction]
  norm_num

/-- Friction-and-deadzone evaluation at `v = 0`. -/
theorem frictionDead_zero : frictionDead (0 : ℝ) = 0 := by
  have hcond : |(0 : ℝ) * friction| < 0.001 := by
    rw [friction]; norm_num
  rw [frictionDead, if_pos hcond]

/-- Integration of the head-on ball. -/
theorem headOn_integrate : ballHeadOn.integrate = ballHeadOn1 := by
  simp only [BallState.integrate, ballHeadOn]
  rw [frictionDead_neg01, frictionDead_zero, BallState.ext_iff]
  norm_num [ballHeadOn1]

/-- The only wall candidate around cell `(1, 2)` of `gridHeadOn` is the
center wall cell. -/
theorem headOn_candidates : wallCandidates gridHeadOn 1 2 = [(1, 1)] := by decide

/-- Closest point x coordinate for the integrated head-on ball. -/
theorem headOn1_closestX : closestX ballHeadOn1 (1, 1) = 2 := by
  norm_num [closestX, ballHeadOn1, min_def, max_def]

/-- Closest point y coordinate for the integrated head-on ball. -/
theorem headOn1_closestY : closestY ballHeadOn1 (1, 1) = 1.5 := by
  norm_num [closestY, ballHeadOn1, min_def, max_def]

/-- Penetration distance of the integrated head-on ball. -/
theorem headOn1_dist : wallDist ballHeadOn1 (1, 1) = 0.2 := by
  rw [wallDist, headOn1_closestX, headOn1_closestY, show ballHeadOn1.x = 2.2 from rfl,
    show ballHeadOn1.y = 1.5 from rfl]
  exact hypot_eval (by norm_num) (by norm_num)

/-- Collision normal x component of the head-on hit. -/
theorem headOn1_nx : wallNx ballHeadOn1 (1, 1) = 1 := by
  rw [wallNx, headOn1_closestX, headOn1_dist, show ballHeadOn1.x = 2.2 from rfl]
  norm_num

/-- Collision normal y component of the head-on hit. -/
theorem headOn1_ny : wallNy ballHeadOn1 (1, 1) = 0 := by
  rw [wallNy, headOn1_closestY, headOn1_dist, show ballHeadOn1.y = 1.5 from rfl]
  norm_num

/-- Normal velocity of the head-on hit. -/
theorem headOn1_dot : wallDot ballHeadOn1 (1, 1) = -0.096 := by
  rw [wallDot, headOn1_nx, headOn1_ny, show ballHeadOn1.vx = -0.096 from rfl,
    show ballHeadOn1.vy = 0 from rfl]
  norm_num

/-- Resolving the head-on hit pushes the ball out and reflects `vx`. -/
theorem headOn1_resolve : resolveWallCell ballHeadOn1 (1, 1) = ballHeadOn2 := by
  have hc1 : wallDist ballHeadOn1 (1, 1) < ballHeadOn1.radius ∧
      wallDist ballHeadOn1 (1, 1) ≠ 0 := by
    rw [headOn1_dist]
    norm_num [ballHeadOn1]
  have hc2 : wallDot ballHeadOn1 (1, 1) < 0 := by
    rw [headOn1_dot]; norm_num
  rw [resolveWallCell, if_pos hc1, if_pos hc2, BallState.ext_iff,
    headOn1_nx, headOn1_ny, headOn1_dist, headOn1_dot]
  norm_num [ballHeadOn1, ballHeadOn2]

/-- The full step on the head-on ball produces `ballHeadOn2`. -/
theorem headOn_step_ball :
    (simulatePhysicsStep ballHeadOn gridHeadOn).ball = ballHeadOn2 := by
  have h1 : (simulatePhysicsStep ballHeadOn gridHeadOn).ball =
      clampToBounds (resolveWallCollisions ballHeadOn.integrate gridHeadOn) gridHeadOn := rfl
  have hfy : ⌊ballHeadOn1.y⌋ = 1 := by
    rw [show ballHeadOn1.y = 1.5 from rfl, Int.floor_eq_iff]
    norm_num
  have hfx : ⌊ballHeadOn1.x⌋ = 2 := by
    rw [show ballHeadOn1.x = 2.2 from rfl, Int.floor_eq_iff]
    norm_num
  rw [h1, headOn_integrate, resolveWallCollisions, hfy, hfx, headOn_candidates]
  simp only [List.foldl_cons, List.foldl_nil]
  rw [headOn1_resolve, clampToBounds, BallState.ext_iff]
  norm_num [ballHeadOn2, gridHeadOn, min_def, max_def]

/-- C3: wall-collision resolution — on a hit (`0 < d < radius`), the ball is
pushed out along the unit separation normal by exactly `radius − d`, so its
distance to the old closest point becomes exactly `radius`; if the normal
velocity `dot` is negative, the velocity is updated by
`v -= 1.8 * dot * n`, leaving the tangential component unchanged. In the
concrete head-on instance (`vx = -0.1` into the wall cell `(1, 1)` of
`gridHeadOn`), the step leaves `vx` positive with no remaining overlap. -/
theorem C3_wall_resolution :
    (∀ (b : BallState) (rc : ℤ × ℤ), wallDist b rc ≠ 0 → wallDist b rc < b.radius →
      (resolveWallCell b rc).x = b.x + wallNx b rc * (b.radius - wallDist b rc) ∧
      (resolveWallCell b rc).y = b.y + wallNy b rc * (b.radius - wallDist b rc) ∧
      hypot ((resolveWallCell b rc).x - closestX b rc)
        ((resolveWallCell b rc).y - closestY b rc) = b.radius ∧
      (wallDot b rc < 0 →
        (resolveWallCell b rc).vx = b.vx - 1.8 * wallDot b rc * wallNx b rc ∧
        (resolveWallCell b rc).vy = b.vy - 1.8 * wallDot b rc * wallNy b rc ∧
        (resolveWallCell b rc).vx * (-(wallNy b rc)) +
            (resolveWallCell b rc).vy * wallNx b rc =
          b.vx * (-(wallNy b rc)) + b.vy * wallNx b rc)) ∧
    (0 < (simulatePhysicsStep ballHeadOn gridHeadOn).ball.vx ∧
      ¬ wallDist (simulatePhysicsStep ballHeadOn gridHeadOn).ball (1, 1) <
        (simulatePhysicsStep ballHeadOn gridHeadOn).ball.radius) := by
  constructor
  · intro b rc h0 hlt
    have hd : 0 < wallDist b rc := lt_of_le_of_ne (hypot_nonneg _ _) (Ne.symm h0)
    have hr : 0 < b.radius := lt_trans hd hlt
    have hx := resolveWallCell_hit_x b rc ⟨hlt, h0⟩
    have hy := resolveWallCell_hit_y b rc ⟨hlt, h0⟩
    refine ⟨hx, hy, ?_, ?_⟩
    · have hex : (resolveWallCell b rc).x - closestX b rc =
          (b.x - closestX b rc) * (b.radius / wallDist b rc) := by
        rw [hx, wallNx]
        field_simp
        ring
      have hey : (resolveWallCell b rc).y - closestY b rc =
          (b.y - closestY b rc) * (b.radius / wallDist b rc) := by
        rw [hy, wallNy]
        field_simp
        ring
      rw [hex, hey, hypot_scale _ _ _ (div_nonneg hr.le hd.le),
        show hypot (b.x - closestX b rc) (b.y - closestY b rc) = wallDist b rc from rfl,
        mul_comm, div_mul_cancel₀ _ h0]
    · intro h2
      obtain ⟨hvx, hvy⟩ := resolveWallCell_hit_v b rc ⟨hlt, h0⟩ h2
      refine ⟨hvx, hvy, ?_⟩
      rw [hvx, hvy]
      ring
  · have hvxpos : 0 < ballHeadOn2.vx := by norm_num [ballHeadOn2]
    have hno : ¬ wallDist ballHeadOn2 (1, 1) < ballHeadOn2.radius := by
      have hcx : closestX ballHeadOn2 (1, 1) = 2 := by
        norm_num [closestX, ballHeadOn2, min_def, max_def]
      have hcy : closestY ballHeadOn2 (1, 1) = 1.5 := by
        norm_num [closestY, ballHeadOn2, min_def, max_def]
      have hwd : wallDist ballHeadOn2 (1, 1) = 0.35 := by
        rw [wallDist, hcx, hcy, show ballHeadOn2.x = 2.35 from rfl,
          show ballHeadOn2.y = 1.5 from rfl]
        exact hypot_eval (by norm_num) (by norm_num)
      rw [hwd, show ballHeadOn2.radius = 0.35 from rfl]
      norm_num
    rw [headOn_step_ball]
    exact ⟨hvxpos, hno⟩

/-- Witness for C3: the integrated head-on ball penetrates wall cell `(1, 1)`
with nonzero distance, and the general resolution law applies to it. -/
theorem C3_wall_resolution_witness :
    (wallDist ballHeadOn1 (1, 1) ≠ 0 ∧ wallDist ballHeadOn1 (1, 1) < ballHeadOn1.radius) ∧
    ((resolveWallCell ballHeadOn1 (1, 1)).x =
        ballHeadOn1.x + wallNx ballHeadOn1 (1, 1) *
          (ballHeadOn1.radius - wallDist ballHeadOn1 (1, 1)) ∧
      (resolveWallCell ballHeadOn1 (1, 1)).y =
        ballHeadOn1.y + wallNy ballHeadOn1 (1, 1) *
          (ballHeadOn1.radius - wallDist ballHeadOn1 (1, 1)) ∧
      hypot ((resolveWallCell ballHeadOn1 (1, 1)).x - closestX ballHeadOn1 (1, 1))
        ((resolveWallCell ballHeadOn1 (1, 1)).y - closestY ballHeadOn1 (1, 1)) =
        ballHeadOn1.radius ∧
      (wallDot ballHeadOn1 (1, 1) < 0 →
        (resolveWallCell ballHeadOn1 (1, 1)).vx =
          ballHeadOn1.vx - 1.8 * wallDot ballHeadOn1 (1, 1) * wallNx ballHeadOn1 (1, 1) ∧
        (resolveWallCell ballHeadOn1 (1, 1)).vy =
          ballHeadOn1.vy - 1.8 * wallDot ballHeadOn1 (1, 1) * wallNy ballHeadOn1 (1, 1) ∧
        (resolveWallCell ballHeadOn1 (1, 1)).vx * (-(wallNy ballHeadOn1 (1, 1))) +
            (resolveWallCell ballHeadOn1 (1, 1)).vy * wallNx ballHeadOn1 (1, 1) =
          ballHeadOn1.vx * (-(wallNy ballHeadOn1 (1, 1))) +
            ballHeadOn1.vy * wallNx ballHeadOn1 (1, 1))) := by
  have h0 : wallDist ballHeadOn1 (1, 1) ≠ 0 := by
    rw [headOn1_dist]; norm_num
  have hlt : wallDist ballHeadOn1 (1, 1) < ballHeadOn1.radius := by
    rw [headOn1_dist]; norm_num [ballHeadOn1]
  exact ⟨⟨h0, hlt⟩, C3_wall_resolution.1 ballHeadOn1 (1, 1) h0 hlt⟩

end TiltMaze
